import Mathlib

/-!
Shallow embedding of the pCDM modeling core (PCDMBackend, pCDM_types) of the
geohazardvis_modeling_pCDM repository.

The C++ code computes with `t_FP = double` and calls the C math library
(`std::sin`, `std::cos`, `std::sqrt`, `std::acos`, `std::atan2`).  The
embedding is polymorphic over the scalar type `α` (a linear ordered field)
and over a record `ScalarOps α` bundling the transcendental primitives, so
that the same definitions serve both
 - the real-valued semantics (`realOps` over `ℝ`, with the mathematical
   sin/cos/sqrt/arccos/atan2), used for the numerical claims, and
 - fully computable instantiations over `ℚ`, used to evaluate the state
   machine on concrete inputs.
Floating-point rounding is abstracted away: arithmetic is exact field
arithmetic.  IEEE NaN is represented by the `isnan` predicate of the ops
record; over `ℝ` every junk value (0/0, `arg 0`, ...) is `0`, which agrees
with the code's `isnan → 0` clamping (see `strikeDip`).
-/

set_option autoImplicit false

/-- Primitive scalar operations used by the C++ core: the C math library
functions, the machine epsilon (`std::numeric_limits<t_FP>::epsilon()`),
and the `std::isnan` test. `atan2 y x` takes the arguments in C order. -/
structure ScalarOps (α : Type) where
  sin : α → α
  cos : α → α
  sqrt : α → α
  arccos : α → α
  atan2 : α → α → α
  isnan : α → Bool
  pi : α
  epsilon : α

namespace pCDM

/-- `pCDM::PointCDMParameters` (pCDM_types.h): source position, depth,
rotation angles omega (degrees) and potencies dv, each modeled as tuples. -/
structure PointCDMParameters (α : Type) where
  horizontalCoord : α × α
  depth : α
  omega : α × α × α
  dv : α × α × α

/-- `PointCDMParameters::isValid` (pCDM_types.cpp): returns the validity
flag together with the message written through the `errorMessage` pointer
(the empty string when the parameters are valid). -/
def PointCDMParameters.isValid {α : Type} [LinearOrderedField α]
    (p : PointCDMParameters α) : Bool × String :=
  if ¬ (p.dv.1 ≥ 0 ∧ p.dv.2.1 ≥ 0 ∧ p.dv.2.2 ≥ 0)
      ∧ ¬ (p.dv.1 ≤ 0 ∧ p.dv.2.1 ≤ 0 ∧ p.dv.2.2 ≤ 0) then
    (false, "Potencies (DV x, y, z) must have the same sign.")
  else if p.depth < 0 then
    (false, "Depth must be a positive value.")
  else
    (true, "")

/-- The nine scalar fields of `PointCDMParameters`, in the order the
comparison loop of `PointCDMParameters::operator==` visits them. -/
def PointCDMParameters.fieldList {α : Type} (p : PointCDMParameters α) : List α :=
  [p.horizontalCoord.1, p.horizontalCoord.2,
   p.depth,
   p.omega.1, p.omega.2.1, p.omega.2.2,
   p.dv.1, p.dv.2.1, p.dv.2.2]

/-- `PointCDMParameters::operator==` (pCDM_types.cpp): the loop returns
`false` as soon as one field pair differs by more than `eps`
(`std::numeric_limits<t_FP>::epsilon()`), so equality holds exactly when
every field pair is within `eps`. -/
def PointCDMParameters.eqEps {α : Type} [LinearOrderedField α]
    (eps : α) (p q : PointCDMParameters α) : Bool :=
  (p.fieldList.zip q.fieldList).all fun ab => decide (|ab.1 - ab.2| ≤ eps)

end pCDM

/-- `PCDMBackend::Parameters` (PCDMBackend.h): source parameters plus the
Poisson ratio `nu`. -/
structure PCDMBackend.Parameters (α : Type) where
  sourceParameters : pCDM.PointCDMParameters α
  nu : α

/-- `PCDMBackend::Parameters::operator==` (PCDMBackend.cpp): epsilon
comparison of the source parameters, but an exact comparison of `nu`
(the C++ uses the built-in `==` on `nu`). -/
def PCDMBackend.Parameters.eqEps {α : Type} [LinearOrderedField α]
    (eps : α) (p q : PCDMBackend.Parameters α) : Bool :=
  pCDM.PointCDMParameters.eqEps eps p.sourceParameters q.sourceParameters
    && decide (p.nu = q.nu)

/-- `PTDdispSurf` (PCDMBackend.cpp, lines 39-112): surface displacements of
a tensile point dislocation in an elastic half-space (Okada, 1985).  The
Eigen column-wise array operations are translated point-wise: each input
coordinate pair yields one (east, north, vertical) triple.  The scalars
`beta`, `cos beta`, `sin beta` do not depend on the point and are hoisted,
as the matrix `Rz` is in the source. -/
def PTDdispSurf {α : Type} [Field α] (ops : ScalarOps α)
    (x y : List α) (xy0 : α × α)
    (depth strike dipRad DV nu : α) : List (α × α × α) :=
  let beta := (strike - 90) * ops.pi / 180
  let cosB := ops.cos beta
  let sinB := ops.sin beta
  (x.zip y).map fun p =>
    -- XY.col(k) -= xy0[k]
    let xt := p.1 - xy0.1
    let yt := p.2 - xy0.2
    -- r_beta = Rz * XY.transpose(), with Rz = [[cos beta, -sin beta], [sin beta, cos beta]]
    let aX := cosB * xt - sinB * yt
    let aY := sinB * xt + cosB * yt
    let aXSq := aX ^ 2
    let aYSq := aY ^ 2
    let d := depth
    let r := ops.sqrt (aXSq + aYSq + d * d)
    let q := aY * ops.sin dipRad - d * ops.cos dipRad
    let nuScaled := 1 - 2 * nu
    let rCb := r ^ 3
    let rd := r + d
    let rdSq := rd ^ 2
    let rdCb := rd ^ 3
    let I1 := nuScaled * aY * (1 / r / rdSq - aXSq * (3 * r + d) / rCb / rdCb)
    let I2 := nuScaled * aX * (1 / r / rdSq - aYSq * (3 * r + d) / rCb / rdCb)
    let I3 := nuScaled * aX / rCb - I2
    let I5 := nuScaled * (1 / r / rd - aXSq * (2 * r + d) / rCb / rdSq)
    let sinDipSq := ops.sin dipRad * ops.sin dipRad
    let qSqTimes3DivRPow5 := 3 * q ^ 2 / r ^ 5
    let ueTemp := DV / 2 / ops.pi * (aX * qSqTimes3DivRPow5 - I3 * sinDipSq)
    let unTemp := DV / 2 / ops.pi * (aY * qSqTimes3DivRPow5 - I1 * sinDipSq)
    let uv := DV / 2 / ops.pi * (d * qSqTimes3DivRPow5 - I5 * sinDipSq)
    -- (Rz.transpose() * ue_un_temp.matrix().transpose()).transpose()
    (cosB * ueTemp + sinB * unTemp, -sinB * ueTemp + cosB * unTemp, uv)

/-- `PCDMBackend::State` (PCDMBackend.h). -/
inductive PCDMBackend.State where
  | uninitialized
  | parametersChanged
  | invalidParameters
  | resultsReady
deriving DecidableEq

/-- The mutable data of a `PCDMBackend` object: lifecycle state, current
parameters, the two input coordinate columns and the three result columns
(east, north, vertical). -/
structure PCDMBackend (α : Type) where
  state : PCDMBackend.State
  parameters : PCDMBackend.Parameters α
  horizontalCoords : List α × List α
  results : List α × List α × List α

/-- A fresh `PCDMBackend` object: state `uninitialized`, empty coordinate
and result vectors.  `m_parameters` is never initialized by the C++
constructor, so the initial parameter values are an arbitrary `p0`. -/
def PCDMBackend.init {α : Type} (p0 : PCDMBackend.Parameters α) : PCDMBackend α :=
  { state := PCDMBackend.State.uninitialized
    parameters := p0
    horizontalCoords := ([], [])
    results := ([], [], []) }

/-- `PCDMBackend::setState` (PCDMBackend.cpp, lines 315-333): clears the
three result vectors unless the new state is `resultsReady`, assigns the
state, and emits `stateChanged` exactly when the state value changed.
Returns the updated object and the list of emitted signals. -/
def PCDMBackend.setState {α : Type} (b : PCDMBackend α) (s : PCDMBackend.State) :
    PCDMBackend α × List PCDMBackend.State :=
  let b1 := if s ≠ PCDMBackend.State.resultsReady
    then { b with results := ([], [], []) } else b
  (({ b1 with state := s } : PCDMBackend α), if b.state ≠ s then [s] else [])

/-- `PCDMBackend::setHorizontalCoords` (PCDMBackend.cpp, lines 130-142):
on a length mismatch only the state changes (to `invalidParameters`);
otherwise the coordinates are stored and the state becomes
`parametersChanged`. -/
def PCDMBackend.setHorizontalCoords {α : Type} (b : PCDMBackend α)
    (coords : List α × List α) : PCDMBackend α × List PCDMBackend.State :=
  if coords.1.length ≠ coords.2.length then
    b.setState PCDMBackend.State.invalidParameters
  else
    ({ b with horizontalCoords := coords } : PCDMBackend α).setState
      PCDMBackend.State.parametersChanged

/-- `PCDMBackend::setParameters` (PCDMBackend.cpp, lines 149-167): a no-op
when the new parameters compare equal (`Parameters::operator==`); else the
parameters are stored (even when invalid) and the state becomes
`invalidParameters` or `parametersChanged` according to `isValid`. -/
def PCDMBackend.setParameters {α : Type} [LinearOrderedField α] (ops : ScalarOps α)
    (b : PCDMBackend α) (p : PCDMBackend.Parameters α) :
    PCDMBackend α × List PCDMBackend.State :=
  if PCDMBackend.Parameters.eqEps ops.epsilon b.parameters p then
    (b, [])
  else
    let b1 : PCDMBackend α := { b with parameters := p }
    if (p.sourceParameters.isValid).1 = false then
      b1.setState PCDMBackend.State.invalidParameters
    else
      b1.setState PCDMBackend.State.parametersChanged

/-- Rotation about the x axis by `t` (what
`Eigen::AngleAxis(t, Vector3::UnitX())` produces as a matrix). -/
def rotX {α : Type} [Field α] (ops : ScalarOps α) (t : α) :
    Matrix (Fin 3) (Fin 3) α :=
  Matrix.of ![![1, 0, 0], ![0, ops.cos t, -ops.sin t], ![0, ops.sin t, ops.cos t]]

/-- Rotation about the y axis by `t`. -/
def rotY {α : Type} [Field α] (ops : ScalarOps α) (t : α) :
    Matrix (Fin 3) (Fin 3) α :=
  Matrix.of ![![ops.cos t, 0, ops.sin t], ![0, 1, 0], ![-ops.sin t, 0, ops.cos t]]

/-- Rotation about the z axis by `t`. -/
def rotZ {α : Type} [Field α] (ops : ScalarOps α) (t : α) :
    Matrix (Fin 3) (Fin 3) α :=
  Matrix.of ![![ops.cos t, -ops.sin t, 0], ![ops.sin t, ops.cos t, 0], ![0, 0, 1]]

/-- The combined rotation `R = Rz(-wz)·Ry(-wy)·Rx(-wx)` of
`PCDMBackend::run` (lines 206-212), with the omega angles converted from
degrees to radians and negated. -/
def combinedRotation {α : Type} [Field α] (ops : ScalarOps α) (omega : α × α × α) :
    Matrix (Fin 3) (Fin 3) α :=
  rotZ ops (-(omega.2.2 * ops.pi / 180)) *
    rotY ops (-(omega.2.1 * ops.pi / 180)) *
      rotX ops (-(omega.1 * ops.pi / 180))

/-- The (strike in degrees, dip in radians) pair derived from column `k` of
the combined rotation matrix (`PCDMBackend::run`, lines 214-236):
`Vstrike = (-R(1,k), R(0,k), 0).normalized()`, strike
`= atan2(Vstrike(0), Vstrike(1))·180/π` with NaN clamped to `0`, dip
`= acos(R(2,k))`. -/
def strikeDip {α : Type} [Field α] (ops : ScalarOps α)
    (R : Matrix (Fin 3) (Fin 3) α) (k : Fin 3) : α × α :=
  let vx := -R 1 k
  let vy := R 0 k
  let n := ops.sqrt (vx * vx + vy * vy + 0 * 0)
  let s := ops.atan2 (vx / n) (vy / n) * 180 / ops.pi
  (if ops.isnan s then 0 else s, ops.arccos (R 2 k))

/-- Component-wise sum of two result columns (`+` on Eigen columns). -/
def addCol {α : Type} [Add α] (u v : List α) : List α := List.zipWith (· + ·) u v

/-- The east components of a per-point triple list (column 0). -/
def colE {α : Type} (u : List (α × α × α)) : List α := u.map fun t => t.1

/-- The north components of a per-point triple list (column 1). -/
def colN {α : Type} (u : List (α × α × α)) : List α := u.map fun t => t.2.1

/-- The vertical components of a per-point triple list (column 2). -/
def colV {α : Type} (u : List (α × α × α)) : List α := u.map fun t => t.2.2

/-- `PCDMBackend::run` (PCDMBackend.cpp, lines 174-297).  Returns the
updated object, the `State` value `run` returns, and the emitted signals. -/
def PCDMBackend.run {α : Type} [LinearOrderedField α] (ops : ScalarOps α)
    (b : PCDMBackend α) :
    PCDMBackend α × PCDMBackend.State × List PCDMBackend.State :=
  match b.state with
  | PCDMBackend.State.invalidParameters => (b, b.state, [])
  | PCDMBackend.State.resultsReady => (b, b.state, [])
  | _ =>
    if b.horizontalCoords.1.length ≠ b.horizontalCoords.2.length then
      let r := b.setState PCDMBackend.State.invalidParameters
      (r.1, r.1.state, r.2)
    else if b.horizontalCoords.1.length = 0 then
      let r := b.setState PCDMBackend.State.invalidParameters
      (r.1, r.1.state, r.2)
    else
      let inputSize := b.horizontalCoords.1.length
      let src := b.parameters.sourceParameters
      let R := combinedRotation ops src.omega
      let sd1 := strikeDip ops R 0
      let sd2 := strikeDip ops R 1
      let sd3 := strikeDip ops R 2
      let u1 := if src.dv.1 ≠ 0 then
          PTDdispSurf ops b.horizontalCoords.1 b.horizontalCoords.2
            src.horizontalCoord src.depth sd1.1 sd1.2 src.dv.1 b.parameters.nu
        else List.replicate inputSize (0, 0, 0)
      let u2 := if src.dv.2.1 ≠ 0 then
          PTDdispSurf ops b.horizontalCoords.1 b.horizontalCoords.2
            src.horizontalCoord src.depth sd2.1 sd2.2 src.dv.2.1 b.parameters.nu
        else List.replicate inputSize (0, 0, 0)
      let u3 := if src.dv.2.2 ≠ 0 then
          PTDdispSurf ops b.horizontalCoords.1 b.horizontalCoords.2
            src.horizontalCoord src.depth sd3.1 sd3.2 src.dv.2.2 b.parameters.nu
        else List.replicate inputSize (0, 0, 0)
      let b1 : PCDMBackend α := { b with results :=
        (addCol (addCol (colE u1) (colE u2)) (colE u3),
         addCol (addCol (colN u1) (colN u2)) (colN u3),
         addCol (addCol (colV u1) (colV u2)) (colV u3)) }
      let r := b1.setState PCDMBackend.State.resultsReady
      (r.1, r.1.state, r.2)

/-- `PCDMBackend::takeResults` (PCDMBackend.cpp, lines 305-313): returns
the result storage (moved out, so the object's own copy becomes empty) and
regresses the state from `resultsReady` to `parametersChanged` by a direct
assignment to `m_state` — bypassing `setState`, so no signal is emitted. -/
def PCDMBackend.takeResults {α : Type} (b : PCDMBackend α) :
    (List α × List α × List α) × PCDMBackend α :=
  (b.results,
    { b with
        state := if b.state = PCDMBackend.State.resultsReady
          then PCDMBackend.State.parametersChanged else b.state
        results := ([], [], []) })

/-- The four mutating operations of the backend's public interface. -/
inductive BackendOp (α : Type) where
  | setCoords (coords : List α × List α)
  | setParams (p : PCDMBackend.Parameters α)
  | runOp
  | takeResultsOp

/-- Applies one interface operation to a backend object, returning the
updated object and the emitted `stateChanged` signals. -/
def applyOp {α : Type} [LinearOrderedField α] (ops : ScalarOps α)
    (op : BackendOp α) (b : PCDMBackend α) :
    PCDMBackend α × List PCDMBackend.State :=
  match op with
  | BackendOp.setCoords c => b.setHorizontalCoords c
  | BackendOp.setParams p => PCDMBackend.setParameters ops b p
  | BackendOp.runOp => let r := PCDMBackend.run ops b; (r.1, r.2.2)
  | BackendOp.takeResultsOp => ((b.takeResults).2, [])

/-- The states a `PCDMBackend` object can be driven into through its public
interface, starting from a freshly constructed object. -/
inductive Reachable {α : Type} [LinearOrderedField α] (ops : ScalarOps α) :
    PCDMBackend α → Prop where
  | init (p0 : PCDMBackend.Parameters α) : Reachable ops (PCDMBackend.init p0)
  | step (op : BackendOp α) (b : PCDMBackend α) :
      Reachable ops b → Reachable ops (applyOp ops op b).1

/-- The mathematical (real-valued) semantics of the scalar primitives.
`std::atan2(y, x)` is the argument of the complex number `x + y·i`; over
`ℝ` there is no NaN, so `isnan` is constantly false.  The junk values the
total real functions produce where C would produce NaN (`0/0 = 0`,
`arg 0 = 0`) agree with the code's NaN-to-0 clamping of the strike. -/
noncomputable def realOps : ScalarOps ℝ where
  sin := Real.sin
  cos := Real.cos
  sqrt := Real.sqrt
  arccos := Real.arccos
  atan2 := fun y x => Complex.arg ⟨x, y⟩
  isnan := fun _ => false
  pi := Real.pi
  epsilon := 1 / 2 ^ 52

/-- A computable rational instantiation of the scalar primitives, used to
drive the state machine on concrete inputs.  The transcendental functions
are irrelevant to the state transitions, so they are all constantly `0`;
`epsilon` is `2^(-52)`, the binary64 machine epsilon. -/
def dummyOpsQ : ScalarOps ℚ where
  sin := fun _ => 0
  cos := fun _ => 0
  sqrt := fun _ => 0
  arccos := fun _ => 0
  atan2 := fun _ _ => 0
  isnan := fun _ => false
  pi := 0
  epsilon := 1 / 2 ^ 52

/-- The components `DV[0], DV[1], DV[2]` of the potency triple. -/
def dvComp {α : Type} (d : α × α × α) : Fin 3 → α
  | 0 => d.1
  | 1 => d.2.1
  | 2 => d.2.2

/-- The (strike, dip) pair `run` derives for axis `k` from the current
parameters. -/
def derivedStrikeDip {α : Type} [Field α] (ops : ScalarOps α)
    (p : PCDMBackend.Parameters α) (k : Fin 3) : α × α :=
  strikeDip ops (combinedRotation ops p.sourceParameters.omega) k

/-- The contribution of the `k`-th PTD inside `run`: the solver output for
a non-zero potency, and an all-zero array of the input length otherwise. -/
def ptdContribution {α : Type} [LinearOrderedField α] (ops : ScalarOps α)
    (p : PCDMBackend.Parameters α) (coords : List α × List α) (k : Fin 3) :
    List (α × α × α) :=
  if dvComp p.sourceParameters.dv k ≠ 0 then
    PTDdispSurf ops coords.1 coords.2
      p.sourceParameters.horizontalCoord p.sourceParameters.depth
      (derivedStrikeDip ops p k).1 (derivedStrikeDip ops p k).2
      (dvComp p.sourceParameters.dv k) p.nu
  else
    List.replicate coords.1.length (0, 0, 0)

/-- The 2D rotation matrix by angle `beta` (the matrix `Rz` of
`PTDdispSurf`). -/
noncomputable def rotationMatrix2 (beta : ℝ) : Matrix (Fin 2) (Fin 2) ℝ :=
  Matrix.of ![![Real.cos beta, -Real.sin beta], ![Real.sin beta, Real.cos beta]]

/-- Modelled from the claim's words (spec §4.1): the per-point PTD
displacement stated as a pipeline — translate by minus the origin, rotate
by `beta = (strike − 90°)·π/180` with the standard 2D rotation matrix,
form `r`, `q` and the `I` integrals, scale by `potency/(2π)`, and rotate
the east/north pair back by the inverse of the `beta` rotation while the
vertical component is left unrotated.  To be compared with `PTDdispSurf`,
which is translated from the source. -/
noncomputable def PTDdispSurfClaimed (x y : List ℝ) (xy0 : ℝ × ℝ)
    (depth strike dipRad DV nu : ℝ) : List (ℝ × ℝ × ℝ) :=
  let beta := (strike - 90) * Real.pi / 180
  (x.zip y).map fun p =>
    let t : Fin 2 → ℝ := ![p.1 - xy0.1, p.2 - xy0.2]
    let a := (rotationMatrix2 beta).mulVec t
    let aX := a 0
    let aY := a 1
    let r := Real.sqrt (aX ^ 2 + aY ^ 2 + depth ^ 2)
    let q := aY * Real.sin dipRad - depth * Real.cos dipRad
    let I1 := (1 - 2 * nu) * aY *
      (1 / (r * (r + depth) ^ 2) - aX ^ 2 * (3 * r + depth) / (r ^ 3 * (r + depth) ^ 3))
    let I2 := (1 - 2 * nu) * aX *
      (1 / (r * (r + depth) ^ 2) - aY ^ 2 * (3 * r + depth) / (r ^ 3 * (r + depth) ^ 3))
    let I3 := (1 - 2 * nu) * aX / r ^ 3 - I2
    let I5 := (1 - 2 * nu) *
      (1 / (r * (r + depth)) - aX ^ 2 * (2 * r + depth) / (r ^ 3 * (r + depth) ^ 2))
    let sinDipSq := Real.sin dipRad ^ 2
    let core := 3 * q ^ 2 / r ^ 5
    let scale := DV / (2 * Real.pi)
    let ueRaw := scale * (aX * core - I3 * sinDipSq)
    let unRaw := scale * (aY * core - I1 * sinDipSq)
    let uvRaw := scale * (depth * core - I5 * sinDipSq)
    let en := (rotationMatrix2 beta)⁻¹.mulVec ![ueRaw, unRaw]
    (en 0, en 1, uvRaw)

/-- Modelled from the claim's words (spec §3): near-equality of
computation parameters as component-wise epsilon tolerance across *every*
scalar field, including the Poisson ratio `nu`.  To be compared with
`PCDMBackend.Parameters.eqEps`, which is translated from the source. -/
def ParametersEqClaimed {α : Type} [LinearOrderedField α]
    (eps : α) (p q : PCDMBackend.Parameters α) : Prop :=
  |p.sourceParameters.horizontalCoord.1 - q.sourceParameters.horizontalCoord.1| ≤ eps ∧
  |p.sourceParameters.horizontalCoord.2 - q.sourceParameters.horizontalCoord.2| ≤ eps ∧
  |p.sourceParameters.depth - q.sourceParameters.depth| ≤ eps ∧
  |p.sourceParameters.omega.1 - q.sourceParameters.omega.1| ≤ eps ∧
  |p.sourceParameters.omega.2.1 - q.sourceParameters.omega.2.1| ≤ eps ∧
  |p.sourceParameters.omega.2.2 - q.sourceParameters.omega.2.2| ≤ eps ∧
  |p.sourceParameters.dv.1 - q.sourceParameters.dv.1| ≤ eps ∧
  |p.sourceParameters.dv.2.1 - q.sourceParameters.dv.2.1| ≤ eps ∧
  |p.sourceParameters.dv.2.2 - q.sourceParameters.dv.2.2| ≤ eps ∧
  |p.nu - q.nu| ≤ eps

/-- Arbitrary initial parameter values for a freshly constructed backend
(the C++ member is uninitialized memory). -/
def exampleParams0 : PCDMBackend.Parameters ℚ :=
  { sourceParameters := ⟨(0, 0), 1, (0, 0, 0), (0, 0, 0)⟩, nu := 1 }

/-- A valid parameter set used to drive the example run. -/
def exampleParamsValid : PCDMBackend.Parameters ℚ :=
  { sourceParameters := ⟨(0, 0), 1, (0, 0, 0), (1, 1, 1)⟩, nu := 0 }

/-- The backend after `setHorizontalCoords(([1], [2]))` on a fresh object. -/
def exampleB1 : PCDMBackend ℚ :=
  (applyOp dummyOpsQ (BackendOp.setCoords ([1], [2])) (PCDMBackend.init exampleParams0)).1

/-- The backend after additionally `setParameters(exampleParamsValid)`. -/
def exampleB2 : PCDMBackend ℚ :=
  (applyOp dummyOpsQ (BackendOp.setParams exampleParamsValid) exampleB1).1

/-- The backend after additionally a successful `run()`. -/
def exampleReady : PCDMBackend ℚ :=
  (applyOp dummyOpsQ BackendOp.runOp exampleB2).1

/-- A parameter set equal to `exampleParamsValid` except that `nu` differs
by exactly the machine epsilon. -/
def exampleParamsNuB : PCDMBackend.Parameters ℚ :=
  { sourceParameters := ⟨(0, 0), 1, (0, 0, 0), (1, 1, 1)⟩, nu := 1 / 2 ^ 52 }

/-- A concrete real-valued parameter set with `omega = (0, 0, 0)`. -/
noncomputable def exampleRealParamsOmega0 : PCDMBackend.Parameters ℝ :=
  { sourceParameters := ⟨(0, 0), 2, (0, 0, 0), (1, 1, 1)⟩, nu := 1 / 4 }

/-- A concrete backend poised for a successful `run` (used to instantiate
universally quantified claims). -/
def exampleRunInput : PCDMBackend ℚ :=
  { state := PCDMBackend.State.parametersChanged
    parameters := exampleParamsValid
    horizontalCoords := ([1], [2])
    results := ([], [], []) }

/-- A concrete backend already in the `resultsReady` state with populated
results. -/
def exampleReadyLiteral : PCDMBackend ℚ :=
  { state := PCDMBackend.State.resultsReady
    parameters := exampleParamsValid
    horizontalCoords := ([1], [2])
    results := ([0], [0], [0]) }

/-- The invariant relating the result vectors to the lifecycle state:
when `resultsReady` all three are non-empty, otherwise all three are
empty. -/
def ResultsInv {α : Type} (b : PCDMBackend α) : Prop :=
  (b.state = PCDMBackend.State.resultsReady →
    b.results.1 ≠ [] ∧ b.results.2.1 ≠ [] ∧ b.results.2.2 ≠ []) ∧
  (b.state ≠ PCDMBackend.State.resultsReady → b.results = ([], [], []))

section HelperLemmas

lemma isValid_fst_iff {α : Type} [LinearOrderedField α] (p : pCDM.PointCDMParameters α) :
    (p.isValid).1 = true ↔
      (((0 ≤ p.dv.1 ∧ 0 ≤ p.dv.2.1 ∧ 0 ≤ p.dv.2.2) ∨
        (p.dv.1 ≤ 0 ∧ p.dv.2.1 ≤ 0 ∧ p.dv.2.2 ≤ 0)) ∧ 0 ≤ p.depth) := by
  unfold pCDM.PointCDMParameters.isValid
  split_ifs with h1 h2
  · constructor
    · intro h
      exact absurd h (by decide)
    · rintro ⟨h | h, -⟩
      · exact absurd h h1.1
      · exact absurd h h1.2
  · constructor
    · intro h
      exact absurd h (by decide)
    · rintro ⟨-, hd⟩
      exact absurd h2 (not_lt.mpr hd)
  · constructor
    · intro _
      refine ⟨?_, not_lt.mp h2⟩
      by_contra hc
      rw [not_or] at hc
      exact h1 ⟨hc.1, hc.2⟩
    · intro _
      rfl

lemma isValid_snd_ne_iff {α : Type} [LinearOrderedField α] (p : pCDM.PointCDMParameters α) :
    (p.isValid).1 = false ↔ (p.isValid).2 ≠ "" := by
  unfold pCDM.PointCDMParameters.isValid
  split_ifs <;> simp

lemma parametersEqEps_iff {α : Type} [LinearOrderedField α]
    (eps : α) (p q : PCDMBackend.Parameters α) :
    PCDMBackend.Parameters.eqEps eps p q = true ↔
      (|p.sourceParameters.horizontalCoord.1 - q.sourceParameters.horizontalCoord.1| ≤ eps ∧
       |p.sourceParameters.horizontalCoord.2 - q.sourceParameters.horizontalCoord.2| ≤ eps ∧
       |p.sourceParameters.depth - q.sourceParameters.depth| ≤ eps ∧
       |p.sourceParameters.omega.1 - q.sourceParameters.omega.1| ≤ eps ∧
       |p.sourceParameters.omega.2.1 - q.sourceParameters.omega.2.1| ≤ eps ∧
       |p.sourceParameters.omega.2.2 - q.sourceParameters.omega.2.2| ≤ eps ∧
       |p.sourceParameters.dv.1 - q.sourceParameters.dv.1| ≤ eps ∧
       |p.sourceParameters.dv.2.1 - q.sourceParameters.dv.2.1| ≤ eps ∧
       |p.sourceParameters.dv.2.2 - q.sourceParameters.dv.2.2| ≤ eps) ∧
      p.nu = q.nu := by
  unfold PCDMBackend.Parameters.eqEps pCDM.PointCDMParameters.eqEps
    pCDM.PointCDMParameters.fieldList
  simp [List.zip, List.all_cons, Bool.and_eq_true, decide_eq_true_eq, and_assoc]

lemma run_noop {α : Type} [LinearOrderedField α] (ops : ScalarOps α) (b : PCDMBackend α)
    (h : b.state = PCDMBackend.State.resultsReady ∨
      b.state = PCDMBackend.State.invalidParameters) :
    PCDMBackend.run ops b = (b, b.state, []) := by
  rcases h with h | h <;> · unfold PCDMBackend.run; rw [h]

lemma run_returns_state {α : Type} [LinearOrderedField α] (ops : ScalarOps α)
    (b : PCDMBackend α) :
    (PCDMBackend.run ops b).2.1 = (PCDMBackend.run ops b).1.state := by
  obtain ⟨st, pr, coords, res⟩ := b
  cases st <;> first
    | rfl
    | · dsimp only [PCDMBackend.run]
        split_ifs <;> rfl

lemma setState_inv_nonready {α : Type} (b : PCDMBackend α) (s : PCDMBackend.State)
    (hs : s ≠ PCDMBackend.State.resultsReady) : ResultsInv (b.setState s).1 := by
  unfold ResultsInv PCDMBackend.setState
  simp [hs]

lemma setHorizontalCoords_inv {α : Type} (b : PCDMBackend α) (coords : List α × List α) :
    ResultsInv (b.setHorizontalCoords coords).1 := by
  unfold PCDMBackend.setHorizontalCoords
  split_ifs with h
  · exact setState_inv_nonready _ _ (by decide)
  · exact setState_inv_nonready _ _ (by decide)

lemma setParameters_inv {α : Type} [LinearOrderedField α] (ops : ScalarOps α)
    (b : PCDMBackend α) (p : PCDMBackend.Parameters α) (hb : ResultsInv b) :
    ResultsInv (PCDMBackend.setParameters ops b p).1 := by
  unfold PCDMBackend.setParameters
  split_ifs with h1 h2
  · exact hb
  · exact setState_inv_nonready _ _ (by decide)
  · exact setState_inv_nonready _ _ (by decide)

lemma takeResults_inv {α : Type} (b : PCDMBackend α) : ResultsInv (b.takeResults).2 := by
  unfold ResultsInv PCDMBackend.takeResults
  by_cases hs : b.state = PCDMBackend.State.resultsReady <;> simp [hs]

lemma PTDdispSurf_length {α : Type} [Field α] (ops : ScalarOps α)
    (x y : List α) (xy0 : α × α) (depth strike dipRad DV nu : α) :
    (PTDdispSurf ops x y xy0 depth strike dipRad DV nu).length =
      min x.length y.length := by
  simp [PTDdispSurf]

lemma ifPTD_length {α : Type} [Field α] (ops : ScalarOps α) (c : Prop) [Decidable c]
    (x y : List α) (hxy : x.length = y.length) (xy0 : α × α)
    (depth strike dipRad DV nu : α) :
    (if c then PTDdispSurf ops x y xy0 depth strike dipRad DV nu
      else List.replicate x.length ((0 : α), (0 : α), (0 : α))).length = x.length := by
  split_ifs
  · simp [PTDdispSurf_length, hxy]
  · simp

lemma sumCols_ne_nil {α : Type} [Add α] (u1 u2 u3 : List (α × α × α)) (n : ℕ)
    (hn : 0 < n) (h1 : u1.length = n) (h2 : u2.length = n) (h3 : u3.length = n) :
    addCol (addCol (colE u1) (colE u2)) (colE u3) ≠ [] ∧
    addCol (addCol (colN u1) (colN u2)) (colN u3) ≠ [] ∧
    addCol (addCol (colV u1) (colV u2)) (colV u3) ≠ [] := by
  refine ⟨?_, ?_, ?_⟩ <;>
    · rw [← List.length_pos]
      simp [addCol, colE, colN, colV, h1, h2, h3, hn]

lemma setState_ready_fst {α : Type} (b : PCDMBackend α) :
    (b.setState PCDMBackend.State.resultsReady).1 =
      { b with state := PCDMBackend.State.resultsReady } := by
  unfold PCDMBackend.setState
  simp

lemma run_inv {α : Type} [LinearOrderedField α] (ops : ScalarOps α)
    (b : PCDMBackend α) (hb : ResultsInv b) : ResultsInv (PCDMBackend.run ops b).1 := by
  obtain ⟨st, pr, coords, res⟩ := b
  cases st
  case invalidParameters => exact hb
  case resultsReady => exact hb
  all_goals
    dsimp only [PCDMBackend.run]
    by_cases h1 : coords.1.length ≠ coords.2.length
    case pos =>
      rw [if_pos h1]
      exact setState_inv_nonready _ _ (by decide)
    case neg =>
      rw [if_neg h1]
      by_cases h2 : coords.1.length = 0
      case pos =>
        rw [if_pos h2]
        exact setState_inv_nonready _ _ (by decide)
      case neg =>
        rw [if_neg h2, setState_ready_fst]
        have hxy : coords.1.length = coords.2.length := not_ne_iff.mp h1
        have hn : 0 < coords.1.length := Nat.pos_of_ne_zero h2
        exact ⟨fun _ => sumCols_ne_nil _ _ _ coords.1.length hn
            (ifPTD_length ops _ coords.1 coords.2 hxy _ _ _ _ _ _)
            (ifPTD_length ops _ coords.1 coords.2 hxy _ _ _ _ _ _)
            (ifPTD_length ops _ coords.1 coords.2 hxy _ _ _ _ _ _),
          fun h => absurd rfl h⟩

lemma reachable_inv {α : Type} [LinearOrderedField α] (ops : ScalarOps α)
    (b : PCDMBackend α) (h : Reachable ops b) : ResultsInv b := by
  induction h with
  | init p0 =>
    exact ⟨fun h => absurd h (by simp [PCDMBackend.init]), fun _ => rfl⟩
  | step op b hb ih =>
    cases op with
    | setCoords c => exact setHorizontalCoords_inv _ _
    | setParams p => exact setParameters_inv _ _ _ ih
    | runOp => exact run_inv _ _ ih
    | takeResultsOp => exact takeResults_inv _

lemma exampleB1_eq :
    exampleB1 = ⟨PCDMBackend.State.parametersChanged, exampleParams0, ([1], [2]), ([], [], [])⟩ := by
  simp [exampleB1, applyOp, PCDMBackend.setHorizontalCoords, PCDMBackend.init,
    PCDMBackend.setState]

lemma exampleB2_eq :
    exampleB2 = ⟨PCDMBackend.State.parametersChanged, exampleParamsValid, ([1], [2]), ([], [], [])⟩ := by
  have hne : PCDMBackend.Parameters.eqEps dummyOpsQ.epsilon exampleParams0 exampleParamsValid
      = false := by
    rw [Bool.eq_false_iff, Ne, parametersEqEps_iff]
    simp [exampleParams0, exampleParamsValid]
  have hvalid : ((exampleParamsValid.sourceParameters).isValid).1 = true := by
    rw [isValid_fst_iff]
    norm_num [exampleParamsValid]
  unfold exampleB2 applyOp PCDMBackend.setParameters
  rw [exampleB1_eq]
  simp [hne, hvalid, PCDMBackend.setState]

lemma exampleReady_state : exampleReady.state = PCDMBackend.State.resultsReady := by
  unfold exampleReady applyOp
  rw [exampleB2_eq]
  simp [PCDMBackend.run, PCDMBackend.setState]

lemma exampleReady_reachable : Reachable dummyOpsQ exampleReady :=
  Reachable.step BackendOp.runOp exampleB2
    (Reachable.step (BackendOp.setParams exampleParamsValid) exampleB1
      (Reachable.step (BackendOp.setCoords ([1], [2])) (PCDMBackend.init exampleParams0)
        (Reachable.init exampleParams0)))

lemma rotX_zero : rotX realOps 0 = 1 := by
  ext i j
  fin_cases i <;> fin_cases j <;>
    simp [rotX, realOps, Matrix.one_apply, Matrix.vecHead, Matrix.vecTail]

lemma rotY_zero : rotY realOps 0 = 1 := by
  ext i j
  fin_cases i <;> fin_cases j <;>
    simp [rotY, realOps, Matrix.one_apply, Matrix.vecHead, Matrix.vecTail]

lemma rotZ_zero : rotZ realOps 0 = 1 := by
  ext i j
  fin_cases i <;> fin_cases j <;>
    simp [rotZ, realOps, Matrix.one_apply, Matrix.vecHead, Matrix.vecTail]

lemma combinedRotation_zero :
    combinedRotation realOps ((0 : ℝ), (0 : ℝ), (0 : ℝ)) = 1 := by
  unfold combinedRotation
  simp [rotX_zero, rotY_zero, rotZ_zero]

lemma strikeDip_one_zero :
    strikeDip realOps (1 : Matrix (Fin 3) (Fin 3) ℝ) 0 = (0, Real.pi / 2) := by
  have h1 : ((⟨1, 0⟩ : ℂ)) = 1 := by
    refine Complex.ext ?_ ?_ <;> simp
  unfold strikeDip
  simp [realOps, Matrix.one_apply, h1, Complex.arg_one, Real.arccos_zero]

lemma strikeDip_one_one :
    strikeDip realOps (1 : Matrix (Fin 3) (Fin 3) ℝ) 1 = (-90, Real.pi / 2) := by
  have h1 : ((⟨0, -1⟩ : ℂ)) = -Complex.I := by
    refine Complex.ext ?_ ?_ <;> simp
  have hs : -(Real.pi / 2 * 180) / Real.pi = -90 := by
    field_simp
    ring
  unfold strikeDip
  simp [realOps, Matrix.one_apply, h1, Complex.arg_neg_I, Real.arccos_zero, hs]

lemma strikeDip_one_two :
    strikeDip realOps (1 : Matrix (Fin 3) (Fin 3) ℝ) 2 = (0, 0) := by
  have h1 : ((⟨0, 0⟩ : ℂ)) = 0 := by
    refine Complex.ext ?_ ?_ <;> simp
  unfold strikeDip
  simp [realOps, Matrix.one_apply, h1, Complex.arg_zero, Real.arccos_one]

lemma rotationMatrix2_mul_transpose (beta : ℝ) :
    rotationMatrix2 beta * (rotationMatrix2 beta).transpose = 1 := by
  ext i j
  fin_cases i <;> fin_cases j <;>
    simp [rotationMatrix2, Matrix.mul_apply, Fin.sum_univ_two, Matrix.one_apply,
      Matrix.transpose_apply, Matrix.vecHead, Matrix.vecTail] <;>
    nlinarith [Real.sin_sq_add_cos_sq beta]

lemma rotationMatrix2_inv (beta : ℝ) :
    (rotationMatrix2 beta)⁻¹ = (rotationMatrix2 beta).transpose :=
  Matrix.inv_eq_right_inv (rotationMatrix2_mul_transpose beta)

end HelperLemmas

/-- Claim C4: `isValid` returns true exactly when the three potencies share
a sign and the depth is non-negative, returns a non-empty diagnostic
message exactly when it fails, and behaves as specified on the concrete
inputs `dv = (1,-1,0)`, `dv = (1,1,1)`, `dv = (0,0,0)`, `depth = -0.001`
and `depth = 0`. -/
theorem isValid_spec :
    (∀ (α : Type) [inst : LinearOrderedField α] (p : pCDM.PointCDMParameters α),
        ((p.isValid).1 = true ↔
          (((0 ≤ p.dv.1 ∧ 0 ≤ p.dv.2.1 ∧ 0 ≤ p.dv.2.2) ∨
            (p.dv.1 ≤ 0 ∧ p.dv.2.1 ≤ 0 ∧ p.dv.2.2 ≤ 0)) ∧ 0 ≤ p.depth)) ∧
        ((p.isValid).1 = false ↔ (p.isValid).2 ≠ "")) ∧
    (((⟨(0, 0), 1, (0, 0, 0), (1, -1, 0)⟩ : pCDM.PointCDMParameters ℚ).isValid).1 = false ∧
      ((⟨(0, 0), 1, (0, 0, 0), (1, -1, 0)⟩ : pCDM.PointCDMParameters ℚ).isValid).2 ≠ "") ∧
    ((⟨(0, 0), 1, (0, 0, 0), (1, 1, 1)⟩ : pCDM.PointCDMParameters ℚ).isValid).1 = true ∧
    ((⟨(0, 0), 1, (0, 0, 0), (0, 0, 0)⟩ : pCDM.PointCDMParameters ℚ).isValid).1 = true ∧
    ((⟨(0, 0), -1 / 1000, (0, 0, 0), (1, 1, 1)⟩ : pCDM.PointCDMParameters ℚ).isValid).1 = false ∧
    ((⟨(0, 0), 0, (0, 0, 0), (1, 1, 1)⟩ : pCDM.PointCDMParameters ℚ).isValid).1 = true := by
  have hmixed :
      ((⟨(0, 0), 1, (0, 0, 0), (1, -1, 0)⟩ : pCDM.PointCDMParameters ℚ).isValid).1 = false := by
    rw [Bool.eq_false_iff, Ne, isValid_fst_iff]
    norm_num
  refine ⟨fun α inst p => ⟨isValid_fst_iff p, isValid_snd_ne_iff p⟩,
    ⟨hmixed, (isValid_snd_ne_iff _).mp hmixed⟩, ?_, ?_, ?_, ?_⟩
  · rw [isValid_fst_iff]; norm_num
  · rw [isValid_fst_iff]; norm_num
  · rw [Bool.eq_false_iff, Ne, isValid_fst_iff]; norm_num
  · rw [isValid_fst_iff]; norm_num

/-- Claim C6: `run` returns immediately, changing nothing, when the state
is `resultsReady` or `invalidParameters`; and after a successful `run`, a
second `run` leaves the object (results included) and the state unchanged. -/
theorem run_idempotent :
    (∀ (α : Type) [inst : LinearOrderedField α] (ops : ScalarOps α) (b : PCDMBackend α),
        b.state = PCDMBackend.State.resultsReady ∨
          b.state = PCDMBackend.State.invalidParameters →
        PCDMBackend.run ops b = (b, b.state, [])) ∧
    (∀ (α : Type) [inst : LinearOrderedField α] (ops : ScalarOps α) (b : PCDMBackend α),
        (PCDMBackend.run ops b).2.1 = PCDMBackend.State.resultsReady →
        PCDMBackend.run ops (PCDMBackend.run ops b).1 =
          ((PCDMBackend.run ops b).1, PCDMBackend.State.resultsReady, [])) := by
  refine ⟨fun α inst ops b h => run_noop ops b h, ?_⟩
  · intro α inst ops b h
    have h1 : (PCDMBackend.run ops b).1.state = PCDMBackend.State.resultsReady :=
      (run_returns_state ops b) ▸ h
    rw [run_noop ops _ (Or.inl h1), h1]

/-- Claim C7 (amended): `Parameters` equality — the predicate that makes
`setParameters` a no-op — holds iff the nine `PointCDMParameters` scalar
fields agree within the epsilon tolerance and the Poisson ratio `nu`
agrees exactly (the source compares `nu` with `==`, not with the epsilon
rule). -/
theorem parameters_equality_characterization :
    ∀ (α : Type) [inst : LinearOrderedField α] (eps : α)
      (p q : PCDMBackend.Parameters α),
      PCDMBackend.Parameters.eqEps eps p q = true ↔
        (|p.sourceParameters.horizontalCoord.1 - q.sourceParameters.horizontalCoord.1| ≤ eps ∧
         |p.sourceParameters.horizontalCoord.2 - q.sourceParameters.horizontalCoord.2| ≤ eps ∧
         |p.sourceParameters.depth - q.sourceParameters.depth| ≤ eps ∧
         |p.sourceParameters.omega.1 - q.sourceParameters.omega.1| ≤ eps ∧
         |p.sourceParameters.omega.2.1 - q.sourceParameters.omega.2.1| ≤ eps ∧
         |p.sourceParameters.omega.2.2 - q.sourceParameters.omega.2.2| ≤ eps ∧
         |p.sourceParameters.dv.1 - q.sourceParameters.dv.1| ≤ eps ∧
         |p.sourceParameters.dv.2.1 - q.sourceParameters.dv.2.1| ≤ eps ∧
         |p.sourceParameters.dv.2.2 - q.sourceParameters.dv.2.2| ≤ eps) ∧
        p.nu = q.nu :=
  fun α inst eps p q => parametersEqEps_iff eps p q

/-- Claim C7 (counterexample): at the machine epsilon tolerance, two
parameter sets that agree everywhere except for a `nu` difference of
exactly one epsilon satisfy the claimed all-fields-within-epsilon
predicate but are *not* equal under the source's `operator==`, because
`nu` is compared exactly. -/
theorem parameters_equality_counterexample :
    ¬ (PCDMBackend.Parameters.eqEps dummyOpsQ.epsilon exampleParamsValid exampleParamsNuB = true ↔
        ParametersEqClaimed dummyOpsQ.epsilon exampleParamsValid exampleParamsNuB) := by
  rw [parametersEqEps_iff]
  unfold ParametersEqClaimed exampleParamsValid exampleParamsNuB dummyOpsQ
  norm_num [abs_le]

/-- Witness for claim C6 at a concrete backend in the `resultsReady`
state: `run` returns it unchanged. -/
theorem run_idempotent_witness :
    PCDMBackend.run dummyOpsQ exampleReadyLiteral =
      (exampleReadyLiteral, exampleReadyLiteral.state, []) :=
  run_idempotent.1 ℚ dummyOpsQ exampleReadyLiteral (Or.inl rfl)

/-- Claim C5: in every reachable backend state the three result vectors
are non-empty exactly when the state is `resultsReady`, and in every
non-`resultsReady` state all three are empty. -/
theorem results_nonempty_iff_ready :
    ∀ (α : Type) [inst : LinearOrderedField α] (ops : ScalarOps α) (b : PCDMBackend α),
      Reachable ops b →
      ((b.results.1 ≠ [] ∧ b.results.2.1 ≠ [] ∧ b.results.2.2 ≠ []) ↔
        b.state = PCDMBackend.State.resultsReady) ∧
      (b.state ≠ PCDMBackend.State.resultsReady → b.results = ([], [], [])) := by
  intro α inst ops b h
  have hi := reachable_inv ops b h
  refine ⟨⟨?_, hi.1⟩, hi.2⟩
  intro hne
  by_contra hs
  rw [hi.2 hs] at hne
  exact hne.1 rfl

/-- Witness for claim C5 at the freshly constructed backend. -/
theorem results_nonempty_iff_ready_witness :
    ((((PCDMBackend.init exampleParams0).results.1 ≠ [] ∧
        (PCDMBackend.init exampleParams0).results.2.1 ≠ [] ∧
        (PCDMBackend.init exampleParams0).results.2.2 ≠ []) ↔
      (PCDMBackend.init exampleParams0).state = PCDMBackend.State.resultsReady) ∧
     ((PCDMBackend.init exampleParams0).state ≠ PCDMBackend.State.resultsReady →
      (PCDMBackend.init exampleParams0).results = ([], [], []))) :=
  results_nonempty_iff_ready ℚ dummyOpsQ (PCDMBackend.init exampleParams0)
    (Reachable.init exampleParams0)

/-- Claim C8: from a reachable `resultsReady` state, `takeResults` hands
out the three non-empty result vectors, empties the backend's own result
storage, and regresses the state to `parametersChanged`. -/
theorem takeResults_spec :
    ∀ (α : Type) [inst : LinearOrderedField α] (ops : ScalarOps α) (b : PCDMBackend α),
      Reachable ops b → b.state = PCDMBackend.State.resultsReady →
      ((b.takeResults).1 = b.results ∧
       ((b.takeResults).1.1 ≠ [] ∧ (b.takeResults).1.2.1 ≠ [] ∧
        (b.takeResults).1.2.2 ≠ []) ∧
       (b.takeResults).2.state = PCDMBackend.State.parametersChanged ∧
       (b.takeResults).2.results = ([], [], [])) := by
  intro α inst ops b hr hs
  have hi := reachable_inv ops b hr
  refine ⟨rfl, hi.1 hs, ?_, rfl⟩
  unfold PCDMBackend.takeResults
  simp [hs]

/-- Witness for claim C8 at the concrete backend reached by
`setHorizontalCoords`, `setParameters`, `run`. -/
theorem takeResults_spec_witness :
    ((exampleReady.takeResults).1 = exampleReady.results ∧
     ((exampleReady.takeResults).1.1 ≠ [] ∧ (exampleReady.takeResults).1.2.1 ≠ [] ∧
      (exampleReady.takeResults).1.2.2 ≠ []) ∧
     (exampleReady.takeResults).2.state = PCDMBackend.State.parametersChanged ∧
     (exampleReady.takeResults).2.results = ([], [], [])) :=
  takeResults_spec ℚ dummyOpsQ exampleReady exampleReady_reachable exampleReady_state

/-- Claim C9 (amended): `setHorizontalCoords`, `setParameters` and `run`
emit a `stateChanged` signal carrying the new state exactly when the state
value changes, but `takeResults` emits no signal even though it changes
the state from `resultsReady` to `parametersChanged` (it assigns
`m_state` directly, bypassing `setState`). -/
theorem signals_on_state_change :
    ∀ (α : Type) [inst : LinearOrderedField α] (ops : ScalarOps α)
      (op : BackendOp α) (b : PCDMBackend α),
      (applyOp ops op b).2 =
        match op with
        | BackendOp.takeResultsOp => []
        | _ =>
          if b.state ≠ (applyOp ops op b).1.state
            then [(applyOp ops op b).1.state] else [] := by
  intro α inst ops op b
  cases op with
  | takeResultsOp => rfl
  | setCoords c =>
    dsimp only [applyOp]
    unfold PCDMBackend.setHorizontalCoords
    by_cases h : c.1.length ≠ c.2.length
    case pos => rw [if_pos h]; simp [PCDMBackend.setState]
    case neg => rw [if_neg h]; simp [PCDMBackend.setState]
  | setParams p =>
    dsimp only [applyOp]
    unfold PCDMBackend.setParameters
    by_cases h1 : PCDMBackend.Parameters.eqEps ops.epsilon b.parameters p = true
    case pos => rw [if_pos h1]; simp
    case neg =>
      rw [if_neg h1]
      by_cases h2 : (p.sourceParameters.isValid).1 = false
      case pos => rw [if_pos h2]; simp [PCDMBackend.setState]
      case neg => rw [if_neg h2]; simp [PCDMBackend.setState]
  | runOp =>
    obtain ⟨st, pr, coords, res⟩ := b
    cases st
    case invalidParameters => simp [applyOp, PCDMBackend.run]
    case resultsReady => simp [applyOp, PCDMBackend.run]
    all_goals
      dsimp only [applyOp, PCDMBackend.run]
      by_cases h1 : coords.1.length ≠ coords.2.length
      case pos =>
        rw [if_pos h1]
        simp [PCDMBackend.setState]
      case neg =>
        rw [if_neg h1]
        by_cases h2 : coords.1.length = 0
        case pos =>
          rw [if_pos h2]
          simp [PCDMBackend.setState]
        case neg =>
          rw [if_neg h2]
          simp [PCDMBackend.setState]

/-- Counterexample to claim C9 as stated: at the concrete reachable
backend `exampleReady`, the `takeResults` operation changes the lifecycle
state (from `resultsReady` to `parametersChanged`) yet emits no
`stateChanged` notification. -/
theorem takeResults_no_signal_counterexample :
    exampleReady.state = PCDMBackend.State.resultsReady ∧
    (applyOp dummyOpsQ BackendOp.takeResultsOp exampleReady).1.state ≠
      exampleReady.state ∧
    (applyOp dummyOpsQ BackendOp.takeResultsOp exampleReady).2 = [] := by
  refine ⟨exampleReady_state, ?_, rfl⟩
  dsimp only [applyOp]
  unfold PCDMBackend.takeResults
  simp [exampleReady_state]

/-- Claim C2: whenever `run` proceeds to a successful computation (state
`uninitialized` or `parametersChanged`, equal-length non-empty coordinate
columns), the resulting state is `resultsReady` and each result column is
the component-wise sum of the three PTD contributions at the derived
strike/dip angles, where an axis with zero potency contributes an exact
all-zero array of the input length instead of a solver evaluation. -/
theorem run_superposition :
    ∀ (α : Type) [inst : LinearOrderedField α] (ops : ScalarOps α) (b : PCDMBackend α),
      (b.state = PCDMBackend.State.uninitialized ∨
        b.state = PCDMBackend.State.parametersChanged) →
      b.horizontalCoords.1.length = b.horizontalCoords.2.length →
      b.horizontalCoords.1 ≠ [] →
      ((PCDMBackend.run ops b).2.1 = PCDMBackend.State.resultsReady ∧
       (PCDMBackend.run ops b).1.results =
        (addCol (addCol (colE (ptdContribution ops b.parameters b.horizontalCoords 0))
            (colE (ptdContribution ops b.parameters b.horizontalCoords 1)))
          (colE (ptdContribution ops b.parameters b.horizontalCoords 2)),
         addCol (addCol (colN (ptdContribution ops b.parameters b.horizontalCoords 0))
            (colN (ptdContribution ops b.parameters b.horizontalCoords 1)))
          (colN (ptdContribution ops b.parameters b.horizontalCoords 2)),
         addCol (addCol (colV (ptdContribution ops b.parameters b.horizontalCoords 0))
            (colV (ptdContribution ops b.parameters b.horizontalCoords 1)))
          (colV (ptdContribution ops b.parameters b.horizontalCoords 2))) ∧
       (∀ k : Fin 3, dvComp b.parameters.sourceParameters.dv k = 0 →
         ptdContribution ops b.parameters b.horizontalCoords k =
           List.replicate b.horizontalCoords.1.length
             ((0 : α), (0 : α), (0 : α)))) := by
  intro α inst ops b hst hlen hne
  have hcontrib : ∀ k : Fin 3, dvComp b.parameters.sourceParameters.dv k = 0 →
      ptdContribution ops b.parameters b.horizontalCoords k =
        List.replicate b.horizontalCoords.1.length ((0 : α), (0 : α), (0 : α)) := by
    intro k hk
    unfold ptdContribution
    rw [if_neg (not_not_intro hk)]
  obtain ⟨st, pr, coords, res⟩ := b
  refine ⟨?_, ?_, hcontrib⟩
  · rcases hst with h | h <;>
    · cases h
      dsimp only [PCDMBackend.run]
      rw [if_neg (not_ne_iff.mpr hlen),
        if_neg (fun h0 => hne (List.length_eq_zero.mp h0)), setState_ready_fst]
  · rcases hst with h | h <;>
    · cases h
      dsimp only [PCDMBackend.run]
      rw [if_neg (not_ne_iff.mpr hlen),
        if_neg (fun h0 => hne (List.length_eq_zero.mp h0)), setState_ready_fst]
      simp [ptdContribution, derivedStrikeDip, dvComp]

/-- Witness for claim C2 at a concrete one-point input with
`dv = (1, 1, 1)`. -/
theorem run_superposition_witness :
    ((PCDMBackend.run dummyOpsQ exampleRunInput).2.1 = PCDMBackend.State.resultsReady ∧
     (PCDMBackend.run dummyOpsQ exampleRunInput).1.results =
      (addCol (addCol
          (colE (ptdContribution dummyOpsQ exampleRunInput.parameters
            exampleRunInput.horizontalCoords 0))
          (colE (ptdContribution dummyOpsQ exampleRunInput.parameters
            exampleRunInput.horizontalCoords 1)))
        (colE (ptdContribution dummyOpsQ exampleRunInput.parameters
          exampleRunInput.horizontalCoords 2)),
       addCol (addCol
          (colN (ptdContribution dummyOpsQ exampleRunInput.parameters
            exampleRunInput.horizontalCoords 0))
          (colN (ptdContribution dummyOpsQ exampleRunInput.parameters
            exampleRunInput.horizontalCoords 1)))
        (colN (ptdContribution dummyOpsQ exampleRunInput.parameters
          exampleRunInput.horizontalCoords 2)),
       addCol (addCol
          (colV (ptdContribution dummyOpsQ exampleRunInput.parameters
            exampleRunInput.horizontalCoords 0))
          (colV (ptdContribution dummyOpsQ exampleRunInput.parameters
            exampleRunInput.horizontalCoords 1)))
        (colV (ptdContribution dummyOpsQ exampleRunInput.parameters
          exampleRunInput.horizontalCoords 2))) ∧
     (∀ k : Fin 3, dvComp exampleRunInput.parameters.sourceParameters.dv k = 0 →
       ptdContribution dummyOpsQ exampleRunInput.parameters
           exampleRunInput.horizontalCoords k =
         List.replicate exampleRunInput.horizontalCoords.1.length
           ((0 : ℚ), (0 : ℚ), (0 : ℚ)))) :=
  run_superposition ℚ dummyOpsQ exampleRunInput (Or.inr rfl) rfl (by simp [exampleRunInput])

/-- Claim C10: `setHorizontalCoords` with sequences of unequal length
stores nothing — coordinates and parameters are untouched — while the
state becomes `invalidParameters` and the results are cleared. -/
theorem setHorizontalCoords_mismatch_frame {α : Type} [LinearOrderedField α]
    (b : PCDMBackend α) (coords : List α × List α)
    (h : coords.1.length ≠ coords.2.length) :
    (b.setHorizontalCoords coords).1.horizontalCoords = b.horizontalCoords ∧
    (b.setHorizontalCoords coords).1.parameters = b.parameters ∧
    (b.setHorizontalCoords coords).1.state = PCDMBackend.State.invalidParameters ∧
    (b.setHorizontalCoords coords).1.results = ([], [], []) := by
  simp [PCDMBackend.setHorizontalCoords, PCDMBackend.setState, h]

/-- Witness for claim C10 at the spec's concrete shape (lengths 3 and 4). -/
theorem setHorizontalCoords_mismatch_frame_witness :
    ((PCDMBackend.init exampleParams0).setHorizontalCoords
        ([1, 2, 3], [4, 5, 6, 7])).1.horizontalCoords =
      (PCDMBackend.init exampleParams0).horizontalCoords ∧
    ((PCDMBackend.init exampleParams0).setHorizontalCoords
        ([1, 2, 3], [4, 5, 6, 7])).1.parameters =
      (PCDMBackend.init exampleParams0).parameters ∧
    ((PCDMBackend.init exampleParams0).setHorizontalCoords
        ([1, 2, 3], [4, 5, 6, 7])).1.state = PCDMBackend.State.invalidParameters ∧
    ((PCDMBackend.init exampleParams0).setHorizontalCoords
        ([1, 2, 3], [4, 5, 6, 7])).1.results = ([], [], []) :=
  setHorizontalCoords_mismatch_frame (PCDMBackend.init exampleParams0)
    ([1, 2, 3], [4, 5, 6, 7]) (by decide)

/-- Counterexample to claim C3 as stated: at the concrete parameter set
with `omega = (0, 0, 0)`, the three derived dip angles are *not*
`(0°, 0°, 90°)` — the very first one, `acos(R(2,0)) = acos(0)`, is 90°
(`π/2` radians), not 0°. -/
theorem derived_dips_counterexample :
    ¬ ((derivedStrikeDip realOps exampleRealParamsOmega0 0).2 = 0 ∧
       (derivedStrikeDip realOps exampleRealParamsOmega0 1).2 = 0 ∧
       (derivedStrikeDip realOps exampleRealParamsOmega0 2).2 = Real.pi / 2) := by
  intro h
  have h0 := h.1
  have he : derivedStrikeDip realOps exampleRealParamsOmega0 0 = (0, Real.pi / 2) := by
    unfold derivedStrikeDip
    rw [show exampleRealParamsOmega0.sourceParameters.omega = ((0 : ℝ), (0 : ℝ), (0 : ℝ))
        from rfl, combinedRotation_zero]
    exact strikeDip_one_zero
  rw [he] at h0
  exact absurd h0 (ne_of_gt (half_pos Real.pi_pos))

/-- Claim C3 (amended): with `omega = (0, 0, 0)` the combined rotation is
the identity, so the derived dips are 90°, 90° and 0° (`π/2`, `π/2`, `0`
radians — the two vertical axis-normal dislocations and the horizontal
one) and the derived strikes are the unrotated values 0°, −90° and 0°,
the last obtained through the NaN-to-0 clamp of a degenerate
zero-horizontal strike vector. -/
theorem derived_angles_omega_zero :
    ∀ p : PCDMBackend.Parameters ℝ, p.sourceParameters.omega = (0, 0, 0) →
      (derivedStrikeDip realOps p 0 = (0, Real.pi / 2) ∧
       derivedStrikeDip realOps p 1 = (-90, Real.pi / 2) ∧
       derivedStrikeDip realOps p 2 = (0, 0)) := by
  intro p hw
  unfold derivedStrikeDip
  rw [hw, combinedRotation_zero]
  exact ⟨strikeDip_one_zero, strikeDip_one_one, strikeDip_one_two⟩

/-- Witness for the amended claim C3 at a concrete parameter set. -/
theorem derived_angles_omega_zero_witness :
    (derivedStrikeDip realOps exampleRealParamsOmega0 0 = (0, Real.pi / 2) ∧
     derivedStrikeDip realOps exampleRealParamsOmega0 1 = (-90, Real.pi / 2) ∧
     derivedStrikeDip realOps exampleRealParamsOmega0 2 = (0, 0)) :=
  derived_angles_omega_zero exampleRealParamsOmega0 rfl

set_option maxHeartbeats 1600000 in
/-- Claim C1: for every input, the source solver `PTDdispSurf` computes
exactly the pipeline stated by the spec — translate by minus the origin,
rotate by `beta = (strike − 90°)` radians, form `r`, `q` and the `I`
integrals, scale by `potency/(2π)`, and rotate the east/north pair back by
the inverse of the beta rotation, leaving the vertical component
unrotated. -/
theorem PTDdispSurf_matches_claimed
    (x y : List ℝ) (xy0 : ℝ × ℝ) (depth strike dipRad DV nu : ℝ) (hDV : DV ≠ 0) :
    PTDdispSurf realOps x y xy0 depth strike dipRad DV nu =
      PTDdispSurfClaimed x y xy0 depth strike dipRad DV nu := by
  simp only [PTDdispSurf, PTDdispSurfClaimed, rotationMatrix2_inv]
  refine congrArg₂ List.map ?_ rfl
  funext p
  simp only [realOps, rotationMatrix2, Matrix.mulVec, Matrix.dotProduct,
    Fin.sum_univ_two, Matrix.transpose_apply, Matrix.of_apply, Matrix.cons_val_zero,
    Matrix.cons_val_one, Matrix.head_cons, Matrix.vecHead, Matrix.vecTail,
    Prod.mk.injEq, Function.comp]
  generalize (strike - 90) * Real.pi / 180 = B
  generalize p.1 - xy0.1 = xt
  generalize p.2 - xy0.2 = yt
  have hsq : Real.sqrt ((Real.cos B * xt - Real.sin B * yt) ^ 2 +
        (Real.sin B * xt + Real.cos B * yt) ^ 2 + depth * depth) =
      Real.sqrt ((Real.cos B * xt + -Real.sin B * yt) ^ 2 +
        (Real.sin B * xt + Real.cos B * yt) ^ 2 + depth ^ 2) := by
    congr 1
    ring
  rw [hsq]
  generalize Real.sqrt ((Real.cos B * xt + -Real.sin B * yt) ^ 2 +
    (Real.sin B * xt + Real.cos B * yt) ^ 2 + depth ^ 2) = r
  simp only [div_div]
  refine ⟨?_, ?_, ?_⟩ <;> ring

/-- Witness for claim C1 at a concrete one-point input with potency 1. -/
theorem PTDdispSurf_matches_claimed_witness :
    PTDdispSurf realOps [1] [0] ((0 : ℝ), (0 : ℝ)) 1 0 0 1 (1 / 4) =
      PTDdispSurfClaimed [1] [0] ((0 : ℝ), (0 : ℝ)) 1 0 0 1 (1 / 4) :=
  PTDdispSurf_matches_claimed [1] [0] ((0 : ℝ), (0 : ℝ)) 1 0 0 1 (1 / 4) one_ne_zero
